import Mathlib

/-!
Verification of the emotion-detection core (src/app.py and src/ed.py).

The repository's core logic is the rule-based audio-emotion classifier and
the fusion of an audio-derived emotion with a text-classifier output.
Floating-point scalars (pitch, energy, spectral centroid, confidence) are
embedded as rationals: every threshold in the source is a short decimal
literal, and the code only ever compares them, so the order structure of ℚ
is a faithful model of the comparisons the code performs.
-/

/-- Guard of rule 1 of the audio-emotion decision tree:
`energy < 0.02 and pitch < 100` (src/app.py line 44, src/ed.py line 68). -/
def rule1Cond (pitch energy : ℚ) : Bool :=
  decide (energy < 0.02 ∧ pitch < 100)

/-- Guard of rule 2 of the audio-emotion decision tree:
`pitch > 200 and energy > 0.05` (src/app.py line 46, src/ed.py line 70). -/
def rule2Cond (pitch energy : ℚ) : Bool :=
  decide (pitch > 200 ∧ energy > 0.05)

/-- Guard of rule 3 of the audio-emotion decision tree:
`energy > 0.04 and pitch < 150` (src/app.py line 48, src/ed.py line 72). -/
def rule3Cond (pitch energy : ℚ) : Bool :=
  decide (energy > 0.04 ∧ pitch < 150)

/-- The `audio_emotion` if/elif chain, textually identical in
src/app.py lines 44-51 and src/ed.py lines 68-75; both embeddings of
`combine_results` below use this shared definition. -/
def audioEmotionOf (pitch energy : ℚ) : String :=
  if rule1Cond pitch energy then "sad"
  else if rule2Cond pitch energy then "happy"
  else if rule3Cond pitch energy then "angry"
  else "neutral"

namespace App

/-- src/app.py lines 42-58 (`combine_results`): destructures the feature
triple `(pitch, energy, centroid)`, computes `audio_emotion` by the
threshold chain, gates on `text_conf > 0.7`, else on `energy > 0.03`,
and returns the pair `(audio_emotion, final_emotion)`.  The centroid is
bound but never used, exactly as in the source. -/
def combine_results : ℚ × ℚ × ℚ → String → ℚ → String × String
  | (pitch, energy, _centroid), text_label, text_conf =>
    let audio_emotion := audioEmotionOf pitch energy
    let final_emotion :=
      if text_conf > 0.7 then text_label
      else if energy > 0.03 then audio_emotion else text_label
    (audio_emotion, final_emotion)

/-- src/app.py lines 35-40 (`analyze_text_emotion`): short-circuits to
`("neutral", 0.0)` when the stripped text is empty — `not text.strip()`
holds exactly when every character of the text is whitespace, which is how
the test is embedded here — otherwise calls the text classifier and
lowercases its label.  The classifier pipeline is abstracted as an adapter
function; the Bool in the result records whether the adapter was invoked
(instrumentation of the call, not a source value). -/
def analyze_text_emotion (classifier : String → String × ℚ) (text : String) :
    (String × ℚ) × Bool :=
  if text.data.all Char.isWhitespace then (("neutral", 0.0), false)
  else
    let result := classifier text
    ((result.1.toLower, result.2), true)

end App

namespace Ed

/-- src/ed.py lines 65-90 (`combine_results`): same feature destructuring
and `audio_emotion` chain as app.py, but with an extra branch on
`audio_emotion == text_label` inside the low-confidence case, and it
returns only `final_emotion` (a single string), not a pair. -/
def combine_results : ℚ × ℚ × ℚ → String → ℚ → String
  | (pitch, energy, _centroid), text_label, text_conf =>
    let audio_emotion := audioEmotionOf pitch energy
    if text_conf > 0.7 then text_label
    else
      if audio_emotion = text_label then audio_emotion
      else if energy > 0.03 then audio_emotion else text_label

/-- src/ed.py lines 53-60 (`analyze_text_emotion`): short-circuits to
`("neutral", 0.5)` when the text is exactly the empty string (`not text`),
otherwise calls the text classifier and lowercases its label.  The Bool
records whether the adapter was invoked. -/
def analyze_text_emotion (classifier : String → String × ℚ) (text : String) :
    (String × ℚ) × Bool :=
  if text = "" then (("neutral", 0.5), false)
  else
    let result := classifier text
    ((result.1.toLower, result.2), true)

end Ed

/-- The four-rule decision tree exactly as the specification and claim C1
state it, evaluated in order with first match winning; stated on the full
feature triple, centroid included, as the spec's `classify_audio` is. -/
def classifyAudioSpec (pitch energy _centroid : ℚ) : String :=
  if energy < 0.02 ∧ pitch < 100 then "sad"
  else if pitch > 200 ∧ energy > 0.05 then "happy"
  else if energy > 0.04 ∧ pitch < 150 then "angry"
  else "neutral"

/-- The final emotion of the spec's fusion algorithm (spec section 4.3),
written from the spec's words: confidence gate at 0.7, else the
energy-at-0.03 choice between the audio emotion and the text label. -/
def fuseFinalSpec (pitch energy centroid : ℚ) (text_label : String)
    (text_conf : ℚ) : String :=
  if text_conf > 0.7 then text_label
  else if energy > 0.03 then classifyAudioSpec pitch energy centroid
  else text_label

/-- C1: for every feature triple, the audio emotion computed by the code
(the first component of app.py's `combine_results`, and the shared
`audio_emotion` chain that ed.py also evaluates) equals the four-rule
decision tree of the spec, evaluated in order with first match winning. -/
theorem C1_audio_decision_tree :
    ∀ (pitch energy centroid text_conf : ℚ) (text_label : String),
      (App.combine_results (pitch, energy, centroid) text_label text_conf).1 =
        classifyAudioSpec pitch energy centroid ∧
      audioEmotionOf pitch energy = classifyAudioSpec pitch energy centroid := by
  intro p e c conf l
  have h : audioEmotionOf p e = classifyAudioSpec p e c := by
    simp only [audioEmotionOf, classifyAudioSpec, rule1Cond, rule2Cond, rule3Cond,
      decide_eq_true_eq]
  exact ⟨h, h⟩

/-- C2: whenever `text_conf > 0.7`, the final emotion of both fusion
implementations is the text label, regardless of the audio features. -/
theorem C2_confidence_gate :
    ∀ (pitch energy centroid text_conf : ℚ) (text_label : String),
      text_conf > 0.7 →
      (App.combine_results (pitch, energy, centroid) text_label text_conf).2 =
        text_label ∧
      Ed.combine_results (pitch, energy, centroid) text_label text_conf =
        text_label := by
  intro p e c conf l h
  constructor
  · simp [App.combine_results, h]
  · simp [Ed.combine_results, h]

/-- Witness for C2 at the spec's own example: confidence 0.85, label joy. -/
theorem C2_confidence_gate_witness :
    (App.combine_results (250, 0.06, 1000) "joy" 0.85).2 = "joy" ∧
    Ed.combine_results (250, 0.06, 1000) "joy" 0.85 = "joy" :=
  C2_confidence_gate 250 0.06 1000 0.85 "joy" (by norm_num)

/-- C3: whenever `text_conf ≤ 0.7`, the final emotion of both fusion
implementations is the audio emotion when `energy > 0.03` and the text
label otherwise.  For ed.py this covers its extra
`audio_emotion == text_label` branch, which is semantically redundant. -/
theorem C3_low_confidence_branch :
    ∀ (pitch energy centroid text_conf : ℚ) (text_label : String),
      ¬ text_conf > 0.7 →
      (App.combine_results (pitch, energy, centroid) text_label text_conf).2 =
        (if energy > 0.03 then audioEmotionOf pitch energy else text_label) ∧
      Ed.combine_results (pitch, energy, centroid) text_label text_conf =
        (if energy > 0.03 then audioEmotionOf pitch energy else text_label) := by
  intro p e c conf l h
  constructor
  · simp [App.combine_results, h]
  · by_cases heq : audioEmotionOf p e = l
    · by_cases he : e > 0.03 <;> simp [Ed.combine_results, h, heq, he]
    · simp [Ed.combine_results, h, heq]

/-- Witness for C3 at confidence 0.3 and energy 0.01 (spec's example:
low text confidence and weak audio fall back to the text label). -/
theorem C3_low_confidence_branch_witness :
    (App.combine_results (250, 0.01, 1000) "sadness" 0.3).2 =
      (if (0.01:ℚ) > 0.03 then audioEmotionOf 250 0.01 else "sadness") ∧
    Ed.combine_results (250, 0.01, 1000) "sadness" 0.3 =
      (if (0.01:ℚ) > 0.03 then audioEmotionOf 250 0.01 else "sadness") :=
  C3_low_confidence_branch 250 0.01 1000 0.3 "sadness" (by norm_num)

/-- C6: on every input, ed.py's `combine_results` computes the same final
emotion as the second component of app.py's `combine_results`: the extra
`audio_emotion == text_label` branch in ed.py never changes the result. -/
theorem C6_ed_app_final_equal :
    ∀ (pitch energy centroid text_conf : ℚ) (text_label : String),
      Ed.combine_results (pitch, energy, centroid) text_label text_conf =
        (App.combine_results (pitch, energy, centroid) text_label text_conf).2 := by
  intro p e c conf l
  by_cases h : conf > 0.7
  · simp [App.combine_results, Ed.combine_results, h]
  · by_cases heq : audioEmotionOf p e = l
    · by_cases he : e > 0.03 <;>
        simp [App.combine_results, Ed.combine_results, h, heq, he]
    · simp [App.combine_results, Ed.combine_results, h, heq]

/-- C5 counterexample: ed.py's `combine_results` returns a single string,
not a pair; concretely, at pitch 250, energy 0.01, confidence 0.2 with
label calm, the audio-derived emotion is neutral but ed.py's entire
return value is the string calm, so no component of its result is the
audio-derived emotion.  (app.py does return the claimed pair.) -/
theorem C5_counterexample :
    Ed.combine_results (250, 0.01, 1000) "calm" 0.2 = "calm" ∧
    audioEmotionOf 250 0.01 = "neutral" ∧ "calm" ≠ "neutral" := by
  refine ⟨?_, ?_, by decide⟩ <;>
    norm_num [Ed.combine_results, audioEmotionOf, rule1Cond, rule2Cond, rule3Cond]

/-- C5 as amended: app.py's `combine_results` returns the pair whose first
component is the audio-derived emotion and whose second is the final
emotion of the spec's fusion algorithm; ed.py's `combine_results` returns
only that final emotion, with no audio-emotion component. -/
theorem C5_amended_fusion_result :
    ∀ (pitch energy centroid text_conf : ℚ) (text_label : String),
      App.combine_results (pitch, energy, centroid) text_label text_conf =
        (audioEmotionOf pitch energy,
          fuseFinalSpec pitch energy centroid text_label text_conf) ∧
      Ed.combine_results (pitch, energy, centroid) text_label text_conf =
        fuseFinalSpec pitch energy centroid text_label text_conf := by
  intro p e c conf l
  have hspec : ∀ x : ℚ, classifyAudioSpec p e x = audioEmotionOf p e := by
    intro x
    simp only [audioEmotionOf, classifyAudioSpec, rule1Cond, rule2Cond, rule3Cond,
      decide_eq_true_eq]
  constructor
  · by_cases h : conf > 0.7
    · simp [App.combine_results, fuseFinalSpec, h]
    · by_cases he : e > 0.03 <;>
        simp [App.combine_results, fuseFinalSpec, h, he, hspec]
  · by_cases h : conf > 0.7
    · simp [Ed.combine_results, fuseFinalSpec, h]
    · by_cases heq : audioEmotionOf p e = l
      · by_cases he : e > 0.03 <;>
          simp [Ed.combine_results, fuseFinalSpec, h, heq, he, hspec]
      · by_cases he : e > 0.03 <;>
          simp [Ed.combine_results, fuseFinalSpec, h, heq, he, hspec]

/-- C7: the final emotion of both implementations is always either the
audio-derived emotion or the text label, never any other value. -/
theorem C7_no_blended_value :
    ∀ (pitch energy centroid text_conf : ℚ) (text_label : String),
      ((App.combine_results (pitch, energy, centroid) text_label text_conf).2 =
          (App.combine_results (pitch, energy, centroid) text_label text_conf).1 ∨
        (App.combine_results (pitch, energy, centroid) text_label text_conf).2 =
          text_label) ∧
      (Ed.combine_results (pitch, energy, centroid) text_label text_conf =
          audioEmotionOf pitch energy ∨
        Ed.combine_results (pitch, energy, centroid) text_label text_conf =
          text_label) := by
  intro p e c conf l
  constructor
  · by_cases h : conf > 0.7
    · exact Or.inr (by simp [App.combine_results, h])
    · by_cases he : e > 0.03
      · exact Or.inl (by simp [App.combine_results, h, he])
      · exact Or.inr (by simp [App.combine_results, h, he])
  · by_cases h : conf > 0.7
    · exact Or.inr (by simp [Ed.combine_results, h])
    · by_cases heq : audioEmotionOf p e = l
      · exact Or.inl (by simp [Ed.combine_results, h, heq])
      · by_cases he : e > 0.03
        · exact Or.inl (by simp [Ed.combine_results, h, heq, he])
        · exact Or.inr (by simp [Ed.combine_results, h, heq, he])

/-- C8: the spectral centroid (third feature component) has no influence
on either output of either implementation: changing only the centroid
leaves the full result of app.py and the result of ed.py unchanged. -/
theorem C8_centroid_noninterference :
    ∀ (pitch energy c₁ c₂ text_conf : ℚ) (text_label : String),
      App.combine_results (pitch, energy, c₁) text_label text_conf =
        App.combine_results (pitch, energy, c₂) text_label text_conf ∧
      Ed.combine_results (pitch, energy, c₁) text_label text_conf =
        Ed.combine_results (pitch, energy, c₂) text_label text_conf := by
  intro p e c₁ c₂ conf l
  exact ⟨rfl, rfl⟩

/-- C9: the guards of rule 1 and rule 2 of the audio-emotion classifier
are mutually exclusive: no (pitch, energy) pair satisfies both
`energy < 0.02 ∧ pitch < 100` and `pitch > 200 ∧ energy > 0.05`; and when
rule 1 fires the classifier indeed returns sad (rule 1 takes precedence). -/
theorem C9_rules_mutually_exclusive :
    ∀ pitch energy : ℚ,
      (rule1Cond pitch energy && rule2Cond pitch energy) = false ∧
      (rule1Cond pitch energy = true → audioEmotionOf pitch energy = "sad") := by
  intro p e
  constructor
  · by_cases h1 : e < 0.02 ∧ p < 100
    · have h2 : ¬ (p > 200 ∧ e > 0.05) := fun h => absurd h1.2 (by linarith [h.1])
      simp [rule1Cond, rule2Cond, h1, h2]
    · simp [rule1Cond, h1]
  · intro h
    simp only [audioEmotionOf, h, if_true]

/-- Witness for C9 at pitch 50, energy 0.01, where rule 1 fires. -/
theorem C9_rules_mutually_exclusive_witness :
    (rule1Cond 50 0.01 && rule2Cond 50 0.01) = false ∧
    audioEmotionOf 50 0.01 = "sad" :=
  ⟨(C9_rules_mutually_exclusive 50 0.01).1,
    (C9_rules_mutually_exclusive 50 0.01).2 (by norm_num [rule1Cond])⟩

/-- C10: both fusion thresholds are strict.  At `text_conf` exactly 0.7
the confidence gate is not taken and the energy test decides the final
emotion in both implementations; and at energy exactly 0.03 in that
branch the final emotion is the text label, not the audio emotion. -/
theorem C10_strict_thresholds :
    ∀ (pitch energy centroid : ℚ) (text_label : String),
      (App.combine_results (pitch, energy, centroid) text_label 0.7).2 =
        (if energy > 0.03 then audioEmotionOf pitch energy else text_label) ∧
      Ed.combine_results (pitch, energy, centroid) text_label 0.7 =
        (if energy > 0.03 then audioEmotionOf pitch energy else text_label) ∧
      (App.combine_results (pitch, 0.03, centroid) text_label 0.7).2 =
        text_label ∧
      Ed.combine_results (pitch, 0.03, centroid) text_label 0.7 = text_label := by
  intro p e c l
  have hconf : ¬ (0.7:ℚ) > 0.7 := by norm_num
  have he3 : ¬ (0.03:ℚ) > 0.03 := by norm_num
  refine ⟨?_, ?_, ?_, ?_⟩
  · simp [App.combine_results, hconf]
  · by_cases heq : audioEmotionOf p e = l
    · by_cases he : e > 0.03 <;> simp [Ed.combine_results, hconf, heq, he]
    · simp [Ed.combine_results, hconf, heq]
  · simp [App.combine_results, hconf, he3]
  · by_cases heq : audioEmotionOf p 0.03 = l
    · simp [Ed.combine_results, hconf, heq]
    · simp [Ed.combine_results, hconf, heq, he3]

/-- C4 counterexample: in src/ed.py, the whitespace-only text consisting of
one space is not caught by the `not text` test, so the classifier adapter
is invoked on it (the claim says it never is), and on the exactly-empty
text ed.py returns `("neutral", 0.5)`, whose confidence differs from the
claimed `("neutral", 0.0)`. -/
theorem C4_counterexample :
    (Ed.analyze_text_emotion (fun _ => ("joy", 0.9)) " ").2 = true ∧
    Ed.analyze_text_emotion (fun _ => ("joy", 0.9)) "" = (("neutral", 0.5), false) ∧
    (0.5 : ℚ) ≠ 0.0 := by
  exact ⟨rfl, rfl, by norm_num⟩

/-- C4 as amended: app.py's `analyze_text_emotion` returns
`("neutral", 0.0)` without invoking the classifier on every text that is
empty or whitespace-only; ed.py's short-circuits only on the exactly-empty
text and there returns `("neutral", 0.5)`, while on the whitespace-only
text consisting of one space it does invoke the classifier. -/
theorem C4_amended_empty_text :
    ∀ (classifier : String → String × ℚ) (text : String),
      text.data.all Char.isWhitespace = true →
      App.analyze_text_emotion classifier text = (("neutral", 0.0), false) ∧
      Ed.analyze_text_emotion classifier "" = (("neutral", 0.5), false) ∧
      (Ed.analyze_text_emotion classifier " ").2 = true := by
  intro f t h
  exact ⟨by simp [App.analyze_text_emotion, h], rfl, rfl⟩

/-- Witness for C4's amended statement on the one-space text. -/
theorem C4_amended_empty_text_witness :
    " ".data.all Char.isWhitespace = true ∧
    (App.analyze_text_emotion (fun _ => ("joy", 0.9)) " " =
        (("neutral", 0.0), false) ∧
      Ed.analyze_text_emotion (fun _ => ("joy", 0.9)) "" =
        (("neutral", 0.5), false) ∧
      (Ed.analyze_text_emotion (fun _ => ("joy", 0.9)) " ").2 = true) :=
  ⟨by decide, C4_amended_empty_text (fun _ => ("joy", 0.9)) " " (by decide)⟩
